import Mathlib

/-!
Verification development for the MP land-extraction orchestrator
(`main.py` / `mp_land_scraper.py`) and its supervising watchdog
(`watchdog.py`).

The source is shallowly embedded: external effects (HTTP responses,
file-system events, the pickled checkpoint file, process-table lookups)
are made explicit inputs/outputs of otherwise pure Lean functions that
mirror the Python control flow branch by branch.  Times and ages that
the Python code computes with real-valued arithmetic (hours since a
timestamp) are modelled with rationals; wall-clock instants used only as
opaque timestamps are modelled with naturals.  Python `set`s of district
ids are modelled with `Finset String` (district ids are canonicalised to
strings by `str(district_id)` at every entry point).
-/

namespace MPLand

/-- The persisted extraction progress record (`load_state`/`save_state`
in `main.py`): three sets of district-id strings plus an optional
last-run timestamp. -/
structure ExtractionState where
  completed_districts : Finset String
  valid_districts : Finset String
  failed_districts : Finset String
  last_run : Option Nat
deriving DecidableEq

/-- The default initial state returned by `load_state` when no usable
checkpoint exists (`main.py` lines 93-98). -/
def emptyState : ExtractionState :=
  { completed_districts := ∅
    valid_districts := ∅
    failed_districts := ∅
    last_run := none }

/-- `load_state` (`main.py` lines 83-98).  The checkpoint file on disk
is modelled as `Option (Option ExtractionState)`: `none` when
`Path(STATE_FILE).exists()` is false, `some none` when the file exists
but `pickle.load` raises (corrupt bytes; the exception is caught and
logged), and `some (some s)` when unpickling succeeds with record `s`.
In both failure shapes control falls through to the default state. -/
def load_state (file : Option (Option ExtractionState)) : ExtractionState :=
  match file with
  | some (some s) => s
  | some none => emptyState
  | none => emptyState

/-- `save_state` (`main.py` lines 100-107): stamps `last_run` with the
current time and persists the whole record (persistence failures are
swallowed and do not change the in-memory record). -/
def save_state (now : Nat) (state : ExtractionState) : ExtractionState :=
  { state with last_run := some now }

/-- The body of an HTTP-200 response as the scraper observes it:
either it parses as JSON (in which case only the length of the
`features` list matters downstream, `data.get('features', [])`), or it
fails to parse (`json.JSONDecodeError`). -/
inductive Body where
  | json (featureCount : Nat)
  | raw
deriving DecidableEq

/-- Outcome of `session.get(...)` after the transport layer's internal
retries: either a response with some status code and body, or a
`requests.exceptions.RequestException` escaping with retries
exhausted. -/
inductive NetOutcome where
  | response (status : Nat) (body : Body)
  | exn
deriving DecidableEq

/-- Result tuple of `check_district_validity` (`main.py` returns
`(district_id, bool)`), extended with the state it leaves behind and
the number of remote queries it issued. -/
structure ProbeResult where
  district : String
  isValid : Bool
  state : ExtractionState
  networkCalls : Nat
deriving DecidableEq

/-- `check_district_validity` (`main.py` lines 109-173).  Skips (no
network call) when the id is already recorded valid or completed;
otherwise issues one probe query and classifies the outcome.  Only the
branch that finds at least one feature mutates state (adds to
`valid_districts` and saves); every other branch returns `False` with
the state untouched. -/
def check_district_validity (now : Nat) (district_id : String)
    (state : ExtractionState) (net : NetOutcome) : ProbeResult :=
  if district_id ∈ state.valid_districts then
    ⟨district_id, true, state, 0⟩
  else if district_id ∈ state.completed_districts then
    ⟨district_id, true, state, 0⟩
  else
    match net with
    | .response status body =>
      if status = 200 then
        match body with
        | .json fc =>
          if fc > 0 then
            ⟨district_id, true,
              save_state now
                { state with
                  valid_districts := insert district_id state.valid_districts },
              1⟩
          else
            ⟨district_id, false, state, 1⟩
        | .raw => ⟨district_id, false, state, 1⟩
      else
        ⟨district_id, false, state, 1⟩
    | .exn => ⟨district_id, false, state, 1⟩

/-- The three-way classification the probe branches realise (the
branches are distinguished in the source by their log lines: "Valid
(has features)", "Invalid (no features)", "Invalid response format" /
"Error {status}" / "Request failed"). -/
inductive ProbeClass where
  | valid
  | invalid
  | unreachable
deriving DecidableEq

/-- Which probe branch a network outcome selects in
`check_district_validity` (`main.py` lines 150-173). -/
def probeClass (net : NetOutcome) : ProbeClass :=
  match net with
  | .response status body =>
    if status = 200 then
      match body with
      | .json fc => if fc > 0 then .valid else .invalid
      | .raw => .unreachable
    else .unreachable
  | .exn => .unreachable

/-- File-system events `fetch_district_data` performs on the per-district
artifact paths, in program order.  `writeScratch` is the write of the
raw response bytes to the `.json.partial` scratch path;
`writeFinalDirect` is `open(output_file, "w")` followed by
`json.dump(data, f, indent=4)` — an in-place, incremental write to the
final path; `renameScratchToFinal` is `os.rename(temp_file,
output_file)`; `unlinkScratch` is `temp_file.unlink(missing_ok=True)`. -/
inductive FsEvent where
  | writeScratch (district : String)
  | writeFinalDirect (district : String)
  | renameScratchToFinal (district : String)
  | unlinkScratch (district : String)
deriving DecidableEq

/-- Whether an event makes content appear at the final artifact path. -/
def FsEvent.targetsFinal : FsEvent → Bool
  | .writeFinalDirect _ => true
  | .renameScratchToFinal _ => true
  | _ => false

/-- Whether an event is an atomic promotion (rename) of the verified
scratch file to the final path. -/
def FsEvent.isRenamePromotion : FsEvent → Bool
  | .renameScratchToFinal _ => true
  | _ => false

/-- Result tuple of `fetch_district_data` (`main.py` returns
`(district_id, success, feature_count)`), extended with the state it
leaves behind, the file-system events it performed, and the number of
remote queries it issued. -/
structure FetchResult where
  district : String
  success : Bool
  featureCount : Nat
  state : ExtractionState
  events : List FsEvent
  networkCalls : Nat
deriving DecidableEq

/-- `fetch_district_data` (`main.py` lines 175-261).  Short-circuits
with `(id, True, 0)` when the id is already completed.  On HTTP 200 the
response bytes are written to the scratch path and parsed from there:
a successful parse re-serialises the document directly to the final
path, marks completed, saves, and unlinks the scratch file; a parse
failure renames the scratch file to the final path and still marks
completed and saves.  On a non-200 status or a transport exception the
id is added to `failed_districts`, the state is saved, and no artifact
path is touched. -/
def fetch_district_data (now : Nat) (district_id : String)
    (state : ExtractionState) (net : NetOutcome) : FetchResult :=
  if district_id ∈ state.completed_districts then
    ⟨district_id, true, 0, state, [], 0⟩
  else
    match net with
    | .response status body =>
      if status = 200 then
        match body with
        | .json fc =>
          ⟨district_id, true, fc,
            save_state now
              { state with
                completed_districts :=
                  insert district_id state.completed_districts },
            [.writeScratch district_id, .writeFinalDirect district_id,
              .unlinkScratch district_id],
            1⟩
        | .raw =>
          ⟨district_id, true, 0,
            save_state now
              { state with
                completed_districts :=
                  insert district_id state.completed_districts },
            [.writeScratch district_id, .renameScratchToFinal district_id],
            1⟩
      else
        ⟨district_id, false, 0,
          save_state now
            { state with
              failed_districts := insert district_id state.failed_districts },
          [], 1⟩
    | .exn =>
      ⟨district_id, false, 0,
        save_state now
          { state with
            failed_districts := insert district_id state.failed_districts },
        [], 1⟩

/-- One iteration of the validation sweep in `main` (`main.py` lines
279-290): ids already completed or already valid are appended to the
in-memory `valid_districts` list (if absent) and skipped without
probing; all other ids are probed, and a positive probe appends them to
the list.  Returns the updated list, the updated state, and the number
of remote queries issued in this iteration. -/
def validation_step (now : Nat) (district_id : String)
    (state : ExtractionState) (valid_list : List String) (net : NetOutcome) :
    List String × ExtractionState × Nat :=
  if district_id ∈ state.completed_districts ∨
      district_id ∈ state.valid_districts then
    ((if district_id ∈ valid_list then valid_list
      else valid_list ++ [district_id]), state, 0)
  else
    let r := check_district_validity now district_id state net
    ((if r.isValid ∧ district_id ∉ valid_list then valid_list ++ [district_id]
      else valid_list), r.state, r.networkCalls)

/-- The final report `main` assembles in its summary section (`main.py`
lines 322-339): the partition of download results into successes and
failures, the retry-candidate set `state['failed_districts'] -
set(successful ids)`, and the fact that the "Data extraction completed"
/ "Total districts processed:" log marker was emitted. -/
structure RunReport where
  successful : List FetchResult
  failedDownloads : List FetchResult
  retry_districts : Finset String
  completionMarkerLogged : Bool
deriving DecidableEq

/-- The download dispatch loop of `main` (`main.py` lines 304-320),
modelled as a sequential fold over the pending list: each task's
`fetch_district_data` reads the state left by the previously completed
task (the thread pool interleaves tasks, but every state mutation is a
single add-then-save; the fold is the linearisation of task
completions).  The per-district network outcome is supplied by an
oracle `net`. -/
def run_downloads (now : Nat) (pending : List String)
    (state : ExtractionState) (net : String → NetOutcome) :
    ExtractionState × List FetchResult :=
  pending.foldl
    (fun acc d =>
      let r := fetch_district_data now d acc.1 (net d)
      (r.state, acc.2 ++ [r]))
    (state, [])

/-- The download-and-report half of `main` (`main.py` lines 294-339).
`districts_to_download` is the list comprehension filtering the valid
list against `completed_districts`.  When it is empty, `main` logs
"All valid districts have already been processed. Nothing to download."
and `return`s at line 299: none of the summary section runs, so no
report and no completion marker is produced (`none`).  Otherwise the
downloads run and the summary section builds the report. -/
def download_phase (now : Nat) (valid_list : List String)
    (state : ExtractionState) (net : String → NetOutcome) :
    ExtractionState × Option RunReport :=
  let districts_to_download :=
    valid_list.filter (fun d => decide (d ∉ state.completed_districts))
  if districts_to_download = [] then
    (state, none)
  else
    let p := run_downloads now districts_to_download state net
    let successful := p.2.filter (fun r => r.success)
    let failedDownloads := p.2.filter (fun r => !r.success)
    let retry :=
      p.1.failed_districts \ (successful.map (fun r => r.district)).toFinset
    (p.1, some ⟨successful, failedDownloads, retry, true⟩)

/-! ### Watchdog (`watchdog.py`) -/

/-- The run-marker (lock) file as `check_lock_file` observes it:
absent, unusable (unreadable or fewer than two comma-separated fields —
the `except` / fall-through paths), or a well-formed `pid,timestamp`
record.  `ageHours` is `(time.time() - timestamp) / 3600` and
`ownerAlive` is whether `ps -p pid` succeeds. -/
inductive LockFile where
  | absent
  | malformed
  | content (pid : Nat) (ageHours : ℚ) (ownerAlive : Bool)
deriving DecidableEq

/-- `MAX_RUNTIME_HOURS` (`watchdog.py` line 27). -/
def MAX_RUNTIME_HOURS : ℚ := 12

/-- `check_lock_file` (`watchdog.py` lines 52-79): returns
`(is_stale, pid)`.  Stale means the owner process is dead and the
marker is older than the runtime ceiling; a live owner returns
`(False, pid)`; every other path falls through to `(False, 0)`. -/
def check_lock_file : LockFile → Bool × Nat
  | .absent => (false, 0)
  | .malformed => (false, 0)
  | .content pid ageHours ownerAlive =>
    if !ownerAlive then
      if ageHours > MAX_RUNTIME_HOURS then (true, pid) else (false, 0)
    else
      (false, pid)

/-- What `check_recent_logs` extracts from the newest extraction log
file: whether it contains the completion marker pair ("Data extraction
completed" and "Total districts processed:"), whether any crash
signature matches, and the age in hours of the last timestamped line
(`none` when no line parses as a timestamp). -/
structure LogInfo where
  hasCompletionMarker : Bool
  hasErrorPattern : Bool
  lastEntryAgeHours : Option ℚ
deriving DecidableEq

/-- The log directory as `check_recent_logs` observes it: no
`mp_land_extraction_*.log` files at all, an exception while reading, or
a newest file summarised by `LogInfo`. -/
inductive LogsEnv where
  | noFiles
  | readError
  | files (info : LogInfo)
deriving DecidableEq

/-- `check_recent_logs` (`watchdog.py` lines 81-131): returns
`(success, status)`.  No log files ⇒ `(False, "No logs")`; completion
marker ⇒ `(True, "Completed")`; crash signature ⇒ `(False, "Crashed")`;
last timestamped line older than one hour ⇒ `(False, "Stalled")`;
otherwise ⇒ `(True, "In Progress")`; an exception while reading ⇒
`(False, "Error: ...")`. -/
def check_recent_logs : LogsEnv → Bool × String
  | .noFiles => (false, "No logs")
  | .readError => (false, "Error")
  | .files info =>
    if info.hasCompletionMarker then (true, "Completed")
    else if info.hasErrorPattern then (false, "Crashed")
    else
      match info.lastEntryAgeHours with
      | some a => if a > 1 then (false, "Stalled") else (true, "In Progress")
      | none => (true, "In Progress")

/-- Everything `should_restart` observes about the host: whether a
process matching `python.*mp_land_scraper.py` (other than the watchdog
itself) is in the process table, the lock file, the log directory, and
the age in hours of the checkpoint file's last modification (`none`
when `STATE_FILE` does not exist or the stat raises). -/
structure WatchdogEnv where
  orchestratorProcessRunning : Bool
  lock : LockFile
  logs : LogsEnv
  stateFileAgeHours : Option ℚ
deriving DecidableEq

/-- `should_restart` (`watchdog.py` lines 133-163), embedded branch by
branch: a matching running process ⇒ no restart; a stale lock ⇒ restart
(after removing the marker); otherwise the log check runs, and
`not success and status != "Completed"` ⇒ restart; otherwise a
checkpoint file not modified for more than 24 hours ⇒ restart; else no
restart. -/
def should_restart (env : WatchdogEnv) : Bool :=
  if env.orchestratorProcessRunning then false
  else
    let lockCheck := check_lock_file env.lock
    if lockCheck.1 then true
    else
      let logCheck := check_recent_logs env.logs
      if !logCheck.1 && (logCheck.2 != "Completed") then true
      else
        match env.stateFileAgeHours with
        | some h => if h > 24 then true else false
        | none => false

/-! ### Claims -/

/-- C3: `load_state` returns the fresh empty state — all three sets
empty and no last-run timestamp — when no checkpoint file exists or
when the persisted record is unreadable/corrupt; in the corrupt case
the unpickling exception is caught, so the function is total on that
shape and the run is never aborted. -/
theorem load_state_fresh_on_missing_or_corrupt
    (file : Option (Option ExtractionState))
    (h : file = none ∨ file = some none) :
    load_state file = emptyState ∧
    (load_state file).completed_districts = ∅ ∧
    (load_state file).valid_districts = ∅ ∧
    (load_state file).failed_districts = ∅ ∧
    (load_state file).last_run = none := by
  rcases h with h | h <;> subst h <;> exact ⟨rfl, rfl, rfl, rfl, rfl⟩

/-- Witness for C3 at the corrupt-record shape. -/
theorem load_state_fresh_witness :
    load_state (some none) = emptyState ∧
    (load_state (some none)).completed_districts = ∅ ∧
    (load_state (some none)).valid_districts = ∅ ∧
    (load_state (some none)).failed_districts = ∅ ∧
    (load_state (some none)).last_run = none :=
  load_state_fresh_on_missing_or_corrupt (some none) (Or.inr rfl)

/-- C2: for an identifier already recorded completed, the validation
sweep iteration issues zero network calls and leaves the state
untouched, the download dispatcher filters it out of
`districts_to_download`, and `fetch_district_data` short-circuits to a
`(id, True, 0)` result with no network call, no state mutation and no
file-system event. -/
theorem completed_id_skipped_without_network
    (now now2 : Nat) (district_id : String) (state : ExtractionState)
    (valid_list pool_list : List String) (net netf : NetOutcome)
    (h : district_id ∈ state.completed_districts) :
    (validation_step now district_id state valid_list net).2.2 = 0 ∧
    (validation_step now district_id state valid_list net).2.1 = state ∧
    district_id ∉
      pool_list.filter (fun d => decide (d ∉ state.completed_districts)) ∧
    fetch_district_data now2 district_id state netf =
      ⟨district_id, true, 0, state, [], 0⟩ := by
  refine ⟨?_, ?_, ?_, ?_⟩
  · simp [validation_step, h]
  · simp [validation_step, h]
  · simp [List.mem_filter, h]
  · simp [fetch_district_data, h]

/-- Witness for C2: district "2" is completed in the loaded state; the
sweep iteration and a download attempt both skip it untouched. -/
theorem completed_id_skipped_witness :
    (validation_step 0 "2"
        ⟨{"2"}, ∅, ∅, none⟩ [] NetOutcome.exn).2.2 = 0 ∧
    (validation_step 0 "2"
        ⟨{"2"}, ∅, ∅, none⟩ [] NetOutcome.exn).2.1 =
      (⟨{"2"}, ∅, ∅, none⟩ : ExtractionState) ∧
    "2" ∉ (["1", "2"].filter (fun d =>
        decide (d ∉
          (⟨{"2"}, ∅, ∅, none⟩ : ExtractionState).completed_districts))) ∧
    fetch_district_data 1 "2" ⟨{"2"}, ∅, ∅, none⟩
        (.response 200 (.json 3)) =
      ⟨"2", true, 0, ⟨{"2"}, ∅, ∅, none⟩, [], 0⟩ :=
  completed_id_skipped_without_network 0 1 "2" ⟨{"2"}, ∅, ∅, none⟩ []
    ["1", "2"] NetOutcome.exn (.response 200 (.json 3)) (by decide)

/-- C9: every probe outcome leaves `completed_districts` and
`failed_districts` exactly as they were; the only possible state change
is the addition of the probed id to `valid_districts` together with the
last-run refresh performed by the checkpoint save. -/
theorem probe_frame_condition (now : Nat) (district_id : String)
    (state : ExtractionState) (net : NetOutcome) :
    ((check_district_validity now district_id state net).state.completed_districts
        = state.completed_districts) ∧
    ((check_district_validity now district_id state net).state.failed_districts
        = state.failed_districts) ∧
    (((check_district_validity now district_id state net).state = state) ∨
      ((check_district_validity now district_id state net).state =
        save_state now
          { state with
            valid_districts := insert district_id state.valid_districts })) := by
  by_cases hv : district_id ∈ state.valid_districts
  · simp [check_district_validity, hv]
  · by_cases hc : district_id ∈ state.completed_districts
    · simp [check_district_validity, hv, hc]
    · cases net with
      | exn => simp [check_district_validity, hv, hc]
      | response status body =>
        cases body with
        | raw =>
          by_cases h200 : status = 200 <;>
            simp [check_district_validity, hv, hc, h200]
        | json fc =>
          by_cases h200 : status = 200
          · by_cases hfc : fc > 0 <;>
              simp [check_district_validity, save_state, hv, hc, h200, hfc]
          · simp [check_district_validity, hv, hc, h200]

/-- C6: for an id not already known valid or completed, the probe
classifies the network outcome as `probeClass` does and acts
accordingly: valid (200, parseable, ≥1 feature) ⇒ returns true, adds
the id to the valid set and checkpoints immediately; invalid (200,
parseable, 0 features) ⇒ returns false with no state change;
unreachable (non-200, transport failure, or unparseable body) ⇒
returns false with no state change, so the id is probed again on the
next run. -/
theorem probe_classification (now : Nat) (district_id : String)
    (state : ExtractionState) (net : NetOutcome)
    (hv : district_id ∉ state.valid_districts)
    (hc : district_id ∉ state.completed_districts) :
    (probeClass net = .valid →
      check_district_validity now district_id state net =
        ⟨district_id, true,
          save_state now
            { state with
              valid_districts := insert district_id state.valid_districts },
          1⟩) ∧
    (probeClass net = .invalid →
      check_district_validity now district_id state net =
        ⟨district_id, false, state, 1⟩) ∧
    (probeClass net = .unreachable →
      check_district_validity now district_id state net =
        ⟨district_id, false, state, 1⟩) := by
  cases net with
  | exn => simp [check_district_validity, probeClass, hv, hc]
  | response status body =>
    cases body with
    | raw =>
      by_cases h200 : status = 200 <;>
        simp [check_district_validity, probeClass, hv, hc, h200]
    | json fc =>
      by_cases h200 : status = 200
      · by_cases hfc : fc > 0 <;>
          simp [check_district_validity, probeClass, hv, hc, h200, hfc]
      · simp [check_district_validity, probeClass, hv, hc, h200]

/-- Witness for C6 at the valid branch: a fresh id probed with a
200/one-feature response is classified valid, recorded and saved. -/
theorem probe_classification_witness :
    probeClass (.response 200 (.json 1)) = .valid ∧
    check_district_validity 5 "3" emptyState (.response 200 (.json 1)) =
      ⟨"3", true,
        save_state 5
          { emptyState with
            valid_districts := insert "3" emptyState.valid_districts },
        1⟩ :=
  ⟨rfl,
    (probe_classification 5 "3" emptyState (.response 200 (.json 1))
        (by decide) (by decide)).1 rfl⟩

/-- C4: for an id not yet completed, an HTTP-200 response whose body
fails to parse as JSON is a success: the scratch file holding the raw
bytes is renamed to the final artifact path, the id joins the completed
set, the state is checkpointed, and a success result is returned;
whereas a non-200 status or a transport exception adds the id to the
failed set, checkpoints, returns a failure result, and performs no
file-system event at all — in particular nothing is written to the
final path. -/
theorem download_failure_asymmetry (now : Nat) (district_id : String)
    (state : ExtractionState)
    (hc : district_id ∉ state.completed_districts) :
    (fetch_district_data now district_id state (.response 200 .raw) =
      ⟨district_id, true, 0,
        save_state now
          { state with
            completed_districts :=
              insert district_id state.completed_districts },
        [.writeScratch district_id, .renameScratchToFinal district_id],
        1⟩) ∧
    (∀ status body, status ≠ 200 →
      fetch_district_data now district_id state (.response status body) =
        ⟨district_id, false, 0,
          save_state now
            { state with
              failed_districts :=
                insert district_id state.failed_districts },
          [], 1⟩) ∧
    (fetch_district_data now district_id state .exn =
      ⟨district_id, false, 0,
        save_state now
          { state with
            failed_districts := insert district_id state.failed_districts },
        [], 1⟩) := by
  refine ⟨?_, ?_, ?_⟩
  · simp [fetch_district_data, hc]
  · intro status body hs
    cases body <;> simp [fetch_district_data, hc, hs]
  · simp [fetch_district_data, hc]

/-- Witness for C4: district "7" not yet completed; a raw 200 body is
promoted and completed, and a 500 status is recorded as failed with no
artifact events. -/
theorem download_failure_asymmetry_witness :
    (fetch_district_data 4 "7" emptyState (.response 200 .raw) =
      ⟨"7", true, 0,
        save_state 4
          { emptyState with
            completed_districts := insert "7" emptyState.completed_districts },
        [.writeScratch "7", .renameScratchToFinal "7"], 1⟩) ∧
    (fetch_district_data 4 "7" emptyState (.response 500 .raw) =
      ⟨"7", false, 0,
        save_state 4
          { emptyState with
            failed_districts := insert "7" emptyState.failed_districts },
        [], 1⟩) :=
  ⟨(download_failure_asymmetry 4 "7" emptyState (by decide)).1,
    (download_failure_asymmetry 4 "7" emptyState (by decide)).2.1
      500 .raw (by decide)⟩

/-- The final state of a two-run trace for district "4": run 1 probes
it (valid, one feature) and then its full download fails with HTTP 500;
run 2 resumes from the persisted state and downloads it successfully
(200, parseable, seven features). -/
def previouslyFailedTrace : ExtractionState :=
  (fetch_district_data 2 "4"
    (fetch_district_data 1 "4"
      (check_district_validity 0 "4" emptyState
        (.response 200 (.json 1))).state
      (.response 500 .raw)).state
    (.response 200 (.json 7))).state

/-- C5 counterexample: after a previously failed district downloads
successfully, it is a member of both the failed set and the completed
set — the successful download never removes it from
`failed_districts`, so `failed ∩ completed = ∅` is violated on a state
reachable from the empty state by the system's own operations. -/
theorem failed_completed_not_disjoint :
    "4" ∈ previouslyFailedTrace.failed_districts ∧
    "4" ∈ previouslyFailedTrace.completed_districts ∧
    previouslyFailedTrace.failed_districts ∩
        previouslyFailedTrace.completed_districts ≠ ∅ := by
  decide

/-- C5 amended: a download operation preserves
`failed ∩ completed = ∅` provided the id is not already in the failed
set when it is dispatched (so the invariant holds along any single run
started from the empty state, where each id receives at most one
outcome); but success never removes an id from `failed_districts`, so a
previously failed id that later downloads successfully ends up in both
sets. -/
theorem download_preserves_disjointness (now : Nat) (district_id : String)
    (state : ExtractionState) (net : NetOutcome)
    (hdisj : state.failed_districts ∩ state.completed_districts = ∅)
    (hnf : district_id ∉ state.failed_districts) :
    (fetch_district_data now district_id state net).state.failed_districts ∩
      (fetch_district_data now district_id state net).state.completed_districts
      = ∅ := by
  by_cases hc : district_id ∈ state.completed_districts
  · simpa [fetch_district_data, hc] using hdisj
  · have hins1 : insert district_id state.failed_districts ∩
        state.completed_districts = ∅ := by
      rw [Finset.insert_inter_of_not_mem hc]; exact hdisj
    have hins2 : state.failed_districts ∩
        insert district_id state.completed_districts = ∅ := by
      rw [Finset.inter_insert_of_not_mem hnf]; exact hdisj
    cases net with
    | exn => simpa [fetch_district_data, hc, save_state] using hins1
    | response status body =>
      by_cases h200 : status = 200
      · cases body with
        | json fc =>
          simpa [fetch_district_data, hc, h200, save_state] using hins2
        | raw =>
          simpa [fetch_district_data, hc, h200, save_state] using hins2
      · cases body <;>
          simpa [fetch_district_data, hc, h200, save_state] using hins1

/-- Witness for the amended C5: a fresh district downloaded
successfully from the empty state keeps the two sets disjoint. -/
theorem download_preserves_disjointness_witness :
    (fetch_district_data 3 "9" emptyState
        (.response 200 (.json 2))).state.failed_districts ∩
      (fetch_district_data 3 "9" emptyState
        (.response 200 (.json 2))).state.completed_districts = ∅ :=
  download_preserves_disjointness 3 "9" emptyState (.response 200 (.json 2))
    (by decide) (by decide)

/-- C1 counterexample: when the HTTP-200 body parses as JSON, the
pretty-printed document is written directly to the final artifact path
with `json.dump` (`main.py` lines 230-231) — an incremental, in-place
write, not a rename of the verified scratch file — so the final path is
not produced solely by atomic promotion. -/
theorem final_path_written_directly :
    ¬ (∀ e ∈ (fetch_district_data 0 "1" emptyState
          (.response 200 (.json 5))).events,
        e.targetsFinal = true → e.isRenamePromotion = true) := by
  decide

/-- C1 amended: on an HTTP-200 response the scratch file is the first
write target (it receives the raw bytes and is the file parsed for
verification), and the final path is produced by an atomic rename of
the scratch file exactly when the body fails to parse as JSON; a body
that parses is re-serialised and written directly — in place, not by
rename — to the final path, so atomic promotion holds only for the
raw-bytes artifact. -/
theorem artifact_promotion_per_branch (now : Nat) (district_id : String)
    (state : ExtractionState) (body : Body)
    (hc : district_id ∉ state.completed_districts) :
    (fetch_district_data now district_id state
        (.response 200 body)).events.head? =
      some (.writeScratch district_id) ∧
    ((fetch_district_data now district_id state
        (.response 200 body)).events.filter FsEvent.targetsFinal =
      match body with
      | .raw => [.renameScratchToFinal district_id]
      | .json _ => [.writeFinalDirect district_id]) := by
  cases body <;>
    simp [fetch_district_data, hc, FsEvent.targetsFinal, List.filter]

/-- Witness for the amended C1 at the raw-body branch: the scratch
write comes first and the only event producing the final path is the
rename promotion. -/
theorem artifact_promotion_witness :
    (fetch_district_data 0 "8" emptyState
        (.response 200 .raw)).events.head? =
      some (.writeScratch "8") ∧
    ((fetch_district_data 0 "8" emptyState
        (.response 200 .raw)).events.filter FsEvent.targetsFinal =
      [.renameScratchToFinal "8"]) :=
  artifact_promotion_per_branch 0 "8" emptyState .raw (by decide)

/-- C7 counterexample: with the only valid district already completed,
the pending list `valid \ completed` is empty and `main` returns at
line 299 before the summary section ever runs — no report, no counts,
no retry set and no "Data extraction completed" marker are produced. -/
theorem empty_pending_skips_report :
    (["2"].filter (fun d =>
        decide (d ∉ (⟨{"2"}, {"2"}, ∅, none⟩ :
          ExtractionState).completed_districts)) = []) ∧
    (download_phase 0 ["2"] ⟨{"2"}, {"2"}, ∅, none⟩
        (fun _ => .exn)).2 = none := by
  decide

/-- C7 amended: the pending list is exactly the set difference
`valid \ completed`, and the final report — which always carries the
run-completed marker when it exists — is produced precisely when the
pending list is nonempty; when it is empty the orchestrator returns
early, producing no report and no run-completed marker. -/
theorem download_phase_report_iff (now : Nat) (valid_list : List String)
    (state : ExtractionState) (net : String → NetOutcome) :
    (∀ d, d ∈ valid_list.filter
        (fun x => decide (x ∉ state.completed_districts)) ↔
      (d ∈ valid_list ∧ d ∉ state.completed_districts)) ∧
    ((download_phase now valid_list state net).2 = none ↔
      valid_list.filter
        (fun x => decide (x ∉ state.completed_districts)) = []) ∧
    (∀ rep, (download_phase now valid_list state net).2 = some rep →
      rep.completionMarkerLogged = true) := by
  refine ⟨?_, ?_, ?_⟩
  · intro d; simp [List.mem_filter]
  · simp only [download_phase]
    by_cases h : valid_list.filter
        (fun x => decide (x ∉ state.completed_districts)) = []
    · rw [if_pos h]; exact iff_of_true rfl h
    · rw [if_neg h]; exact iff_of_false (by simp) h
  · intro rep hrep
    simp only [download_phase] at hrep
    by_cases h : valid_list.filter
        (fun x => decide (x ∉ state.completed_districts)) = []
    · rw [if_pos h] at hrep
      simp at hrep
    · rw [if_neg h] at hrep
      rw [← Option.some.inj hrep]

/-- Witness for the amended C7 on a concrete run: district "4" pending
(valid but not completed), so a report is produced and it carries the
completion marker. -/
theorem download_phase_report_witness :
    (∀ d, d ∈ (["4"].filter (fun x =>
        decide (x ∉ (emptyState : ExtractionState).completed_districts))) ↔
      (d ∈ ["4"] ∧ d ∉ (emptyState : ExtractionState).completed_districts)) ∧
    ((download_phase 0 ["4"] emptyState
        (fun _ => .response 200 (.json 1))).2 = none ↔
      ["4"].filter (fun x =>
        decide (x ∉ (emptyState : ExtractionState).completed_districts)) = []) ∧
    (∀ rep, (download_phase 0 ["4"] emptyState
        (fun _ => .response 200 (.json 1))).2 = some rep →
      rep.completionMarkerLogged = true) :=
  download_phase_report_iff 0 ["4"] emptyState
    (fun _ => .response 200 (.json 1))

/-- C8 counterexample: no matching orchestrator process, a run marker
whose owner is alive, but no extraction log files at all — the lock
check correctly reports not-stale, yet `should_restart` returns true,
because the decision does not stop at the live-owner marker: it falls
through to the log inspection, which reports "No logs". -/
theorem live_owner_lock_restart :
    (WatchdogEnv.mk false (.content 4242 (1/2) true) .noFiles
        none).orchestratorProcessRunning = false ∧
    (check_lock_file (.content 4242 (1/2) true)).1 = false ∧
    should_restart ⟨false, .content 4242 (1/2) true, .noFiles, none⟩ =
      true := by
  decide

/-- C8 amended: with no matching process and a live-owner run marker,
the stale-lock restart branch is indeed not taken (`check_lock_file`
returns `(False, pid)`), but `should_restart` then proceeds to the
remaining checks: it returns false iff the log inspection reports
success or "Completed" and the checkpoint file is not more than 24
hours stale — so log contents and checkpoint staleness can still force
a restart despite the live owner. -/
theorem live_owner_lock_decision (env : WatchdogEnv) (pid : Nat) (age : ℚ)
    (hrun : env.orchestratorProcessRunning = false)
    (hlock : env.lock = .content pid age true) :
    check_lock_file env.lock = (false, pid) ∧
    (should_restart env = false ↔
      (((check_recent_logs env.logs).1 = true ∨
         (check_recent_logs env.logs).2 = "Completed") ∧
        (∀ h, env.stateFileAgeHours = some h → ¬ (24 < h)))) := by
  have hcl : check_lock_file env.lock = (false, pid) := by
    rw [hlock]; rfl
  refine ⟨hcl, ?_⟩
  rcases hlc : check_recent_logs env.logs with ⟨b, s⟩
  cases b
  · by_cases hs : s = "Completed"
    · subst hs
      cases hst : env.stateFileAgeHours with
      | none => simp [should_restart, hrun, hcl, hlc, hst]
      | some hq =>
        by_cases hgt : (24 : ℚ) < hq
        · simp [should_restart, hrun, hcl, hlc, hst, hgt]
        · simp [should_restart, hrun, hcl, hlc, hst, hgt]
          exact le_of_not_lt hgt
    · simp [should_restart, hrun, hcl, hlc, hs]
  · cases hst : env.stateFileAgeHours with
    | none => simp [should_restart, hrun, hcl, hlc, hst]
    | some hq =>
      by_cases hgt : (24 : ℚ) < hq
      · simp [should_restart, hrun, hcl, hlc, hst, hgt]
      · simp [should_restart, hrun, hcl, hlc, hst, hgt]
        exact le_of_not_lt hgt

/-- A healthy snapshot for the amended C8: live-owner marker, a log
file carrying the completion marker, no checkpoint file. -/
def liveOwnerHealthyEnv : WatchdogEnv :=
  { orchestratorProcessRunning := false
    lock := .content 7 1 true
    logs := .files ⟨true, false, none⟩
    stateFileAgeHours := none }

/-- Witness for the amended C8 at a concrete healthy snapshot. -/
theorem live_owner_lock_decision_witness :
    check_lock_file liveOwnerHealthyEnv.lock = (false, 7) ∧
    (should_restart liveOwnerHealthyEnv = false ↔
      (((check_recent_logs liveOwnerHealthyEnv.logs).1 = true ∨
         (check_recent_logs liveOwnerHealthyEnv.logs).2 = "Completed") ∧
        (∀ h, liveOwnerHealthyEnv.stateFileAgeHours = some h →
          ¬ (24 < h)))) :=
  live_owner_lock_decision liveOwnerHealthyEnv 7 1 rfl rfl

/-- C10: on a clean host — no matching orchestrator process, no run
marker, and no extraction log files at all — the log inspection reports
the non-success status `(False, "No logs")` and `should_restart`
returns true whatever the checkpoint-file age, so a first-ever watchdog
invocation launches the orchestrator. -/
theorem clean_host_restarts (env : WatchdogEnv)
    (h1 : env.orchestratorProcessRunning = false)
    (h2 : env.lock = .absent)
    (h3 : env.logs = .noFiles) :
    check_recent_logs env.logs = (false, "No logs") ∧
    should_restart env = true := by
  refine ⟨by rw [h3]; rfl, ?_⟩
  simp only [should_restart, h1, h2, h3]
  rfl

/-- Witness for C10 on a fully concrete clean host. -/
theorem clean_host_restarts_witness :
    check_recent_logs (WatchdogEnv.mk false .absent .noFiles none).logs =
      (false, "No logs") ∧
    should_restart ⟨false, .absent, .noFiles, none⟩ = true :=
  clean_host_restarts ⟨false, .absent, .noFiles, none⟩ rfl rfl rfl

end MPLand
